import Mathlib

/-!
Shallow embedding of the slick_logger asynchronous logging pipeline
(`include/slick_logger/logger.hpp`, which also carries the sink hierarchy of
`sinks.hpp`).  Producers publish deferred-render records into a queue, a single
writer thread drains contiguous batches and fans each record out to the
configured sinks; file sinks append formatted lines, the rotating sink shifts
numbered siblings on a size threshold, the daily sink renames the base file to
a dated sibling on a date change.

Modelling conventions:
- C++ exceptions (std::format_error escaping a render closure) are `Except`.
- The wall clock (`get_date_string`, file mtimes) is injected as a `today`
  string parameter; timestamps are injected nanosecond counts.
- The filesystem is an association list from path to file record; stream
  buffering is not modelled (writes go through, `flush` has no further
  observable effect), and `open` always succeeds.
- Render-closure invocations are counted explicitly (the `Nat` component of
  each write result): every place the source calls `entry.formatter()`
  contributes one.
-/

namespace SlickLogger

/-- Log severity levels, from `enum class LogLevel : uint8_t` in sinks.hpp. -/
inductive LogLevel where
  | TRACE
  | DEBUG
  | INFO
  | WARN
  | ERR
  | FATAL
deriving DecidableEq, Repr

/-- Underlying integer value of the `uint8_t` enum; C++ `<`/`>=` on levels
compares these values. -/
def LogLevel.toNat : LogLevel → Nat
  | .TRACE => 0
  | .DEBUG => 1
  | .INFO => 2
  | .WARN => 3
  | .ERR => 4
  | .FATAL => 5

/-- Level tag used by `format_log_entry` (`switch (entry.level)` in both
ConsoleSink and FileSink). -/
def level_str : LogLevel → String
  | .TRACE => "TRACE"
  | .DEBUG => "DEBUG"
  | .INFO => "INFO"
  | .WARN => "WARN"
  | .ERR => "ERROR"
  | .FATAL => "FATAL"

/-- Model of `std::vformat` as invoked by the deferred closure built in
`Logger::log`: each `\x7b\x7d` placeholder consumes the next argument
(arguments are modelled type-erased, already rendered to strings), doubled
braces are literals, and a malformed placeholder or a missing argument yields
an error, modelling the `std::format_error` exception `std::vformat` throws. -/
def vformatAux : List Char → List String → String → Except String String
  | [], _, acc => .ok acc
  | '\x7b' :: '\x7b' :: rest, args, acc => vformatAux rest args (acc.push '\x7b')
  | '\x7b' :: '\x7d' :: rest, args, acc =>
      match args with
      | [] => .error "format_error: argument not found"
      | a :: args2 => vformatAux rest args2 (acc ++ a)
  | '\x7b' :: _, _, _ => .error "format_error: invalid format string"
  | '\x7d' :: '\x7d' :: rest, args, acc => vformatAux rest args (acc.push '\x7d')
  | '\x7d' :: _, _, _ => .error "format_error: unmatched brace"
  | c :: rest, args, acc => vformatAux rest args (acc.push c)

/-- Entry point of the vformat model. -/
def vformat (format : String) (args : List String) : Except String String :=
  vformatAux format.data args ""

/-- The capture-by-value lambda built in `Logger::log`: it owns `format` and
the argument pack and performs the `std::vformat` call only when invoked. -/
def mkFormatter (format : String) (args : List String) : Unit → Except String String :=
  fun _ => vformat format args

/-- A queue slot payload: `struct LogEntry` from sinks.hpp. -/
structure LogEntry where
  level : LogLevel
  formatter : Unit → Except String String
  timestamp : Nat

/-- Rotation parameters, from `struct RotationConfig` in sinks.hpp
(`rotation_hour` is kept as a plain hour count). -/
structure RotationConfig where
  max_file_size : Nat := 10 * 1024 * 1024
  max_files : Nat := 5
  compress_old : Bool := false
  rotation_hour : Nat := 0
deriving DecidableEq, Repr

/-- One file of the modelled filesystem: its lines and the date of its last
write (the mtime granularity the daily-rotation discussion needs). -/
structure FileRec where
  lines : List String
  mdate : String
deriving DecidableEq, Repr

/-- Filesystem model: association list from path to file record. -/
abbrev FS := List (String × FileRec)

/-- Look a path up in the filesystem. -/
def FS.lookupFile : FS → String → Option FileRec
  | [], _ => none
  | (q, r) :: rest, p => if q = p then some r else FS.lookupFile rest p

/-- Model of `std::filesystem::exists`. -/
def FS.containsFile (fs : FS) (p : String) : Bool := (fs.lookupFile p).isSome

/-- Drop a path from the filesystem (model of `std::filesystem::remove`). -/
def FS.eraseFile : FS → String → FS
  | [], _ => []
  | (k, r) :: rest, p => if k = p then FS.eraseFile rest p else (k, r) :: FS.eraseFile rest p

/-- Bind a path to a record, replacing any previous binding. -/
def FS.setFile (fs : FS) (p : String) (r : FileRec) : FS := (fs.eraseFile p) ++ [(p, r)]

/-- Model of `ofstream::open` with `std::ios::app`: creates the file when
missing and otherwise keeps its content untouched. -/
def FS.openApp (fs : FS) (p : String) (today : String) : FS :=
  if fs.containsFile p then fs else fs.setFile p { lines := [], mdate := today }

/-- Model of `ofstream::open` with `std::ios::out | std::ios::trunc`. -/
def FS.openTrunc (fs : FS) (p : String) (today : String) : FS :=
  fs.setFile p { lines := [], mdate := today }

/-- Append one line to a file (stream buffering is not modelled, so the write
is immediately visible); the write refreshes the file's last-modified date. -/
def FS.appendLine (fs : FS) (p : String) (line : String) (today : String) : FS :=
  match fs.lookupFile p with
  | some r => fs.setFile p { lines := r.lines ++ [line], mdate := today }
  | none => fs.setFile p { lines := [line], mdate := today }

/-- Model of `std::filesystem::rename`: moves `src` onto `dst`, replacing an
existing `dst`, and preserves the file's record (content and mtime). -/
def FS.renameFile (fs : FS) (src dst : String) : FS :=
  match fs.lookupFile src with
  | some r => (fs.eraseFile src).setFile dst r
  | none => fs

/-- Model of `std::filesystem::remove`. -/
def FS.removeFile (fs : FS) (p : String) : FS := fs.eraseFile p

/-- Byte size of a file as `std::filesystem::file_size` reports it: each line
plus its newline, matching the `formatted.length() + 1` accounting the
rotating sink performs. -/
def FileRec.size_bytes (r : FileRec) : Nat := (r.lines.map (fun l => l.length + 1)).sum

/-- Observable output state shared by all sinks: the two console streams and
the filesystem. -/
structure World where
  std_out : List String
  std_err : List String
  fs : FS

/-- Console destination, from `class ConsoleSink`. -/
structure ConsoleSink where
  use_colors : Bool
  use_stderr_for_errors : Bool
  ts_fmt : Nat → String

/-- ANSI color prefixes from `ConsoleSink::get_color_code`. -/
def ConsoleSink.get_color_code : LogLevel → String
  | .TRACE => "\x1b[90m"
  | .DEBUG => "\x1b[36m"
  | .INFO => "\x1b[32m"
  | .WARN => "\x1b[33m"
  | .ERR => "\x1b[31m"
  | .FATAL => "\x1b[91m"

/-- ANSI reset suffix from `ConsoleSink::get_reset_code`. -/
def ConsoleSink.get_reset_code : String := "\x1b[0m"

/-- `ConsoleSink::format_log_entry`: renders the deferred closure (one
invocation, the `Nat` component) and decorates with timestamp, level tag and
optional colors; a render failure propagates as the exception it is. -/
def ConsoleSink.format_log_entry (s : ConsoleSink) (entry : LogEntry) :
    Except String String × Nat :=
  match entry.formatter () with
  | .ok message =>
      let result := s.ts_fmt entry.timestamp ++ " [" ++ level_str entry.level ++ "] " ++ message
      (.ok (if s.use_colors then
              ConsoleSink.get_color_code entry.level ++ result ++ ConsoleSink.get_reset_code
            else result), 1)
  | .error e => (.error e, 1)

/-- `ConsoleSink::write`: formatted line goes to stderr for levels at or above
WARN when so configured, to stdout otherwise. -/
def ConsoleSink.write (s : ConsoleSink) (w : World) (entry : LogEntry) :
    Except String (ConsoleSink × World) × Nat :=
  match s.format_log_entry entry with
  | (.ok formatted, n) =>
      if s.use_stderr_for_errors && decide (LogLevel.WARN.toNat ≤ entry.level.toNat) then
        (.ok (s, { w with std_err := w.std_err ++ [formatted] }), n)
      else
        (.ok (s, { w with std_out := w.std_out ++ [formatted] }), n)
  | (.error e, n) => (.error e, n)

/-- `ConsoleSink::flush` forces the std stream buffers; buffering is not
modelled so the world is unchanged. -/
def ConsoleSink.flush (w : World) : World := w

/-- Plain file destination, from `class FileSink`: a path, the stream's good
bit, and its timestamp formatter. -/
structure FileSink where
  file_path : String
  stream_ok : Bool
  ts_fmt : Nat → String

/-- `FileSink::FileSink`: opens the path in append mode (the model's open
always succeeds, so the constructor's throw-on-failure branch is not taken). -/
def FileSink.construct (path : String) (ts_fmt : Nat → String) (today : String)
    (w : World) : FileSink × World :=
  ({ file_path := path, stream_ok := true, ts_fmt := ts_fmt },
   { w with fs := w.fs.openApp path today })

/-- `FileSink::format_log_entry`: same shape as the console variant, without
colors. -/
def FileSink.format_log_entry (s : FileSink) (entry : LogEntry) :
    Except String String × Nat :=
  match entry.formatter () with
  | .ok message =>
      (.ok (s.ts_fmt entry.timestamp ++ " [" ++ level_str entry.level ++ "] " ++ message), 1)
  | .error e => (.error e, 1)

/-- `FileSink::write`: guarded by `if (file_stream_)`; with a failed stream
nothing is rendered and nothing is written, and the call still returns
normally. -/
def FileSink.write (today : String) (s : FileSink) (w : World) (entry : LogEntry) :
    Except String (FileSink × World) × Nat :=
  if s.stream_ok then
    match s.format_log_entry entry with
    | (.ok line, n) => (.ok (s, { w with fs := w.fs.appendLine s.file_path line today }), n)
    | (.error e, n) => (.error e, n)
  else
    (.ok (s, w), 0)

/-- `FileSink::flush`: guarded the same way; forcing the buffer has no
observable effect in the write-through model. -/
def FileSink.flush (s : FileSink) (w : World) : World :=
  if s.stream_ok then w else w

/-- A base path split into stem and extension, as
`base_path_.stem()` / `base_path_.extension()` use it (the parent directory is
common to all derived names and is left implicit). -/
structure BasePath where
  stem : String
  ext : String
deriving DecidableEq, Repr

/-- The full path `stem + extension`. -/
def BasePath.render (p : BasePath) : String := p.stem ++ p.ext

/-- Size-rotated file destination, from `class RotatingFileSink : public
FileSink`. -/
structure RotatingFileSink extends FileSink where
  config : RotationConfig
  base_path : BasePath
  current_file_size : Nat

/-- `RotatingFileSink::get_rotated_filename`: `<stem>_<index><ext>`. -/
def RotatingFileSink.get_rotated_filename (s : RotatingFileSink) (index : Nat) : String :=
  s.base_path.stem ++ "_" ++ toString index ++ s.base_path.ext

/-- The shift loop of `rotate_files`: for each index i (descending), move
`base` (when i = 1) or `<stem>_<i-1>` onto `<stem>_<i>` when the source
exists. -/
def RotatingFileSink.shift_files (s : RotatingFileSink) : List Nat → FS → FS
  | [], fs => fs
  | i :: rest, fs =>
      let src := if i == 1 then s.base_path.render else s.get_rotated_filename (i - 1)
      let dst := s.get_rotated_filename i
      RotatingFileSink.shift_files s rest
        (if fs.containsFile src then fs.renameFile src dst else fs)

/-- `RotatingFileSink::rotate_files`: close, drop the oldest retained index,
shift the retained files up from `max_files - 1` down to 1, reopen the base
path truncated and reset the byte counter.  (The C++ loop counter is a
`size_t`; `max_files = 0` would underflow there, the model's descending index
list is simply empty in that case.) -/
def RotatingFileSink.rotate_files (today : String) (s : RotatingFileSink) (w : World) :
    RotatingFileSink × World :=
  let oldest := s.get_rotated_filename (s.config.max_files - 1)
  let fs1 := if w.fs.containsFile oldest then w.fs.removeFile oldest else w.fs
  let fs2 := s.shift_files ((List.range s.config.max_files).drop 1).reverse fs1
  let fs3 := fs2.openTrunc s.base_path.render today
  ({ s with stream_ok := true, current_file_size := 0 }, { w with fs := fs3 })

/-- `RotatingFileSink::check_rotation`: rotate when
`current_file_size_ >= config_.max_file_size`; the boolean reports whether
`rotate_files` ran. -/
def RotatingFileSink.check_rotation (today : String) (s : RotatingFileSink) (w : World) :
    RotatingFileSink × World × Bool :=
  if s.config.max_file_size ≤ s.current_file_size then
    let r := RotatingFileSink.rotate_files today s w
    (r.1, r.2, true)
  else
    (s, w, false)

/-- `RotatingFileSink::write`: check rotation, render (before the stream
check, so the closure is invoked even on a bad stream), then append and grow
the byte counter by `formatted.length() + 1`. -/
def RotatingFileSink.write (today : String) (s : RotatingFileSink) (w : World)
    (entry : LogEntry) : Except String (RotatingFileSink × World) × Nat :=
  let c := RotatingFileSink.check_rotation today s w
  let s1 := c.1
  let w1 := c.2.1
  match FileSink.format_log_entry s1.toFileSink entry with
  | (.ok line, n) =>
      if s1.stream_ok then
        (.ok ({ s1 with current_file_size := s1.current_file_size + line.length + 1 },
              { w1 with fs := w1.fs.appendLine s1.file_path line today }), n)
      else
        (.ok (s1, w1), n)
  | (.error e, n) => (.error e, n)

/-- `RotatingFileSink::RotatingFileSink`: FileSink construction on the base
path, then seed the byte counter from the existing file's size. -/
def RotatingFileSink.construct (base : BasePath) (config : RotationConfig)
    (ts_fmt : Nat → String) (today : String) (w : World) : RotatingFileSink × World :=
  let f := FileSink.construct base.render ts_fmt today w
  let size :=
    match f.2.fs.lookupFile base.render with
    | some r => r.size_bytes
    | none => 0
  ({ toFileSink := f.1, config := config, base_path := base, current_file_size := size }, f.2)

/-- Date-rotated file destination, from `class DailyFileSink : public
FileSink`. -/
structure DailyFileSink extends FileSink where
  config : RotationConfig
  base_path : BasePath
  current_date : String

/-- `DailyFileSink::get_dated_filename`: `<stem>_<date><ext>`. -/
def DailyFileSink.get_dated_filename (s : DailyFileSink) (date : String) : String :=
  s.base_path.stem ++ "_" ++ date ++ s.base_path.ext

/-- `DailyFileSink::check_rotation`: on a date change, close, rename the base
file to the dated filename of the previous date (`std::filesystem::rename`
replaces an existing destination; the copy-and-remove fallback runs only when
rename reports an error, which the filesystem model never does), reopen the
base truncated, record the new date. -/
def DailyFileSink.check_rotation (today : String) (s : DailyFileSink) (w : World) :
    DailyFileSink × World :=
  if today ≠ s.current_date then
    let old_dated := s.get_dated_filename s.current_date
    let fs1 :=
      if w.fs.containsFile s.base_path.render then
        w.fs.renameFile s.base_path.render old_dated
      else w.fs
    let fs2 := fs1.openTrunc s.base_path.render today
    ({ s with current_date := today, stream_ok := true }, { w with fs := fs2 })
  else
    (s, w)

/-- `DailyFileSink::write`: rotation check, then the inherited
`FileSink::write` on the base path. -/
def DailyFileSink.write (today : String) (s : DailyFileSink) (w : World)
    (entry : LogEntry) : Except String (DailyFileSink × World) × Nat :=
  let c := DailyFileSink.check_rotation today s w
  let s1 := c.1
  let w1 := c.2
  if s1.stream_ok then
    match FileSink.format_log_entry s1.toFileSink entry with
    | (.ok line, n) => (.ok (s1, { w1 with fs := w1.fs.appendLine s1.file_path line today }), n)
    | (.error e, n) => (.error e, n)
  else
    (.ok (s1, w1), 0)

/-- `DailyFileSink::DailyFileSink`: FileSink construction on the base path
(append mode, content kept) and `current_date_ = get_date_string()`; the
constructor inspects neither the file's content nor its mtime. -/
def DailyFileSink.construct (base : BasePath) (config : RotationConfig)
    (ts_fmt : Nat → String) (today : String) (w : World) : DailyFileSink × World :=
  let f := FileSink.construct base.render ts_fmt today w
  ({ toFileSink := f.1, config := config, base_path := base, current_date := today }, f.2)

/-- The closed set of `ISink` implementations the library ships. -/
inductive Sink where
  | console : ConsoleSink → Sink
  | file : FileSink → Sink
  | rotating : RotatingFileSink → Sink
  | daily : DailyFileSink → Sink

/-- Virtual dispatch of `ISink::write`. -/
def Sink.write (today : String) (s : Sink) (w : World) (entry : LogEntry) :
    Except String (Sink × World) × Nat :=
  match s with
  | .console c =>
      match c.write w entry with
      | (.ok (c2, w2), n) => (.ok (.console c2, w2), n)
      | (.error e, n) => (.error e, n)
  | .file f =>
      match FileSink.write today f w entry with
      | (.ok (f2, w2), n) => (.ok (.file f2, w2), n)
      | (.error e, n) => (.error e, n)
  | .rotating r =>
      match RotatingFileSink.write today r w entry with
      | (.ok (r2, w2), n) => (.ok (.rotating r2, w2), n)
      | (.error e, n) => (.error e, n)
  | .daily d =>
      match DailyFileSink.write today d w entry with
      | (.ok (d2, w2), n) => (.ok (.daily d2, w2), n)
      | (.error e, n) => (.error e, n)

/-- Virtual dispatch of `ISink::flush` (all variants only force stream
buffers, which the write-through model renders unobservable). -/
def Sink.flush (s : Sink) (w : World) : World :=
  match s with
  | .console _ => ConsoleSink.flush w
  | .file f => FileSink.flush f w
  | .rotating r => FileSink.flush r.toFileSink w
  | .daily d => FileSink.flush d.toFileSink w

/-- The flush pass at the end of `Logger::write_log_entry`: `flush` on every
non-null sink. -/
def flush_all_sinks : List (Option Sink) → World → World
  | [], w => w
  | none :: rest, w => flush_all_sinks rest w
  | some s :: rest, w => flush_all_sinks rest (s.flush w)

/-- The inner loop of `Logger::write_log_entry` for one record: for every
sink in order, `if (sink) sink->write(entry)`.  A render exception escapes
the loop exactly as in the source (there is no try/catch); the invocation
counter still counts the renders performed up to that point. -/
def write_entry_to_sinks (today : String) (entry : LogEntry) :
    List (Option Sink) → World → Except String (List (Option Sink) × World) × Nat
  | [], w => (.ok ([], w), 0)
  | none :: rest, w =>
      match write_entry_to_sinks today entry rest w with
      | (.ok (rest2, w2), n) => (.ok (none :: rest2, w2), n)
      | (.error e, n) => (.error e, n)
  | some s :: rest, w =>
      match Sink.write today s w entry with
      | (.ok (s2, w2), n) =>
          match write_entry_to_sinks today entry rest w2 with
          | (.ok (rest2, w3), m) => (.ok (some s2 :: rest2, w3), n + m)
          | (.error e, m) => (.error e, n + m)
      | (.error e, n) => (.error e, n)

/-- `Logger::write_log_entry`: every record of the batch goes to every
configured sink, then every sink is flushed. -/
def write_log_entry (today : String) :
    List LogEntry → List (Option Sink) → World → Except String (List (Option Sink) × World) × Nat
  | [], sinks, w => (.ok (sinks, flush_all_sinks sinks w), 0)
  | entry :: rest, sinks, w =>
      match write_entry_to_sinks today entry sinks w with
      | (.ok (sinks2, w2), n) =>
          match write_log_entry today rest sinks2 w2 with
          | (r, m) => (r, n + m)
      | (.error e, n) => (.error e, n)

/-- Modelled from the spec: the externally-supplied SlickQueue
(`slick_queue.h` is not part of this repository).  Its observable state is the
sequence of published records in reservation order. -/
structure QueueState where
  published : List LogEntry

/-- Modelled from the spec: `read(read_cursor)` returns the longest contiguous
run of published, unread slots starting at the cursor, or an empty result when
nothing new is published. -/
def QueueState.read (q : QueueState) (read_index : Nat) : List LogEntry :=
  q.published.drop read_index

/-- Dispatcher state: `class Logger`'s `running_`, `queue_`, `sinks_`,
`read_index_` and `log_level_` members (`queue_` is a possibly-null pointer). -/
structure LoggerState where
  running : Bool
  queue : Option QueueState
  sinks : List (Option Sink)
  read_index : Nat
  log_level : LogLevel

/-- `Logger::add_sink`: push onto the sink collection (a null shared_ptr may
be pushed; broadcast skips it). -/
def Logger.add_sink (s : LoggerState) (snk : Option Sink) : LoggerState :=
  { s with sinks := s.sinks ++ [snk] }

/-- `Logger::add_file_sink(path, config)`: constructs a plain
`FileSink(path)`; the `config` argument appears nowhere in the body.  The
constructed sink carries the default `TimestampFormatter` (WITH_MICROSECONDS);
its timestamp-string rendering — `format_timestamp`'s `localtime`/`put_time`
formatting, a pure per-sink function of the nanosecond count — enters the
model as the injected `default_ts_fmt` function, exactly as the per-sink
`ts_fmt` fields do everywhere else. -/
def Logger.add_file_sink (today : String) (s : LoggerState) (w : World)
    (path : BasePath) (default_ts_fmt : Nat → String) (config : RotationConfig) :
    LoggerState × World :=
  let f := FileSink.construct path.render default_ts_fmt today w
  (Logger.add_sink s (some (Sink.file f.1)), f.2)

/-- `Logger::log(level, format, args...)`: guard
`!running_ || !queue_ || level < log_level_`, otherwise build the deferred
closure, reserve one slot, write `{level, closure, now_ns}` into it and
publish it (reservation, slot write and publish linearize to one append of
the record to the published sequence). -/
def Logger.log (s : LoggerState) (level : LogLevel) (format : String)
    (args : List String) (now_ns : Nat) : LoggerState :=
  if !s.running || s.queue.isNone || decide (level.toNat < s.log_level.toNat) then s
  else
    match s.queue with
    | some q =>
        { s with queue := some ⟨q.published ++
            [{ level := level, formatter := mkFormatter format args, timestamp := now_ns }]⟩ }
    | none => s

/-- The final drain loop of `Logger::writer_thread_func`, entered once
`running_` is false: repeatedly `read`, write the batch, advance the cursor,
until `read` comes back empty.  A render exception escapes the loop (and the
thread) exactly as in the source. -/
def drain_loop (today : String) (q : QueueState) (read_index : Nat)
    (sinks : List (Option Sink)) (w : World) :
    Except String (List (Option Sink) × World × Nat) :=
  if (q.read read_index).length = 0 then .ok (sinks, w, read_index)
  else
    match write_log_entry today (q.read read_index) sinks w with
    | (.ok (sinks2, w2), _) =>
        drain_loop today q (read_index + (q.read read_index).length) sinks2 w2
    | (.error e, _) => .error e
termination_by q.published.length - read_index
decreasing_by
  simp only [QueueState.read, List.length_drop] at *
  omega

/-- `Logger::shutdown`: early-return when already stopped; otherwise clear
`running_`, join the writer thread (which performs the final drain), clear the
sink collection and delete the queue.  The file contents and console output
produced by the drain survive in the world. -/
def Logger.shutdown (today : String) (s : LoggerState) (w : World) :
    Except String (LoggerState × World) :=
  if !s.running then .ok (s, w)
  else
    match s.queue with
    | none => .ok ({ s with running := false, sinks := [], queue := none }, w)
    | some q =>
        match drain_loop today q s.read_index s.sinks w with
        | .ok (_, w2, rix) =>
            .ok ({ running := false, queue := none, sinks := [],
                   read_index := rix, log_level := s.log_level }, w2)
        | .error e => .error e

/-- The power-of-two rounding block that `Logger::init(const LogConfig&)`,
`Logger::init(size_t)` and `Logger::init(path, size_t)` share verbatim:
when `queue_size & (queue_size - 1)` is non-zero, smear the high bit of
`queue_size - 1` rightward and add one.  `size_t` is 64-bit, so the final
increment wraps modulo 2^64.  The six `temp |=` lines are the bit smear: -/
def smear64 (t0 : Nat) : Nat :=
  let t1 := t0 ||| (t0 >>> 1)
  let t2 := t1 ||| (t1 >>> 2)
  let t3 := t2 ||| (t2 >>> 4)
  let t4 := t3 ||| (t3 >>> 8)
  let t5 := t4 ||| (t4 >>> 16)
  let t6 := t5 ||| (t5 >>> 32)
  t6

/-- The rounding itself: smear `queue_size - 1` and add one when the guard
fires, otherwise leave the request unchanged. -/
def round_queue_size (queue_size : Nat) : Nat :=
  if queue_size &&& (queue_size - 1) ≠ 0 then
    (smear64 (queue_size - 1) + 1) % 2 ^ 64
  else queue_size

/-- The capacity actually handed to the queue constructor:
`new slick::SlickQueue<LogEntry>(static_cast<uint32_t>(queue_size))`. -/
def used_queue_capacity (queue_size : Nat) : Nat :=
  round_queue_size queue_size % 2 ^ 32

/-- Which sinks invoke the render closure during one `write` call: console
sinks always; file sinks only behind their stream guard; rotating sinks
always (they render before the stream check); daily sinks behind the stream
guard as it stands after the date check (a rotation reopens the stream). -/
def Sink.renders_on_write (today : String) : Sink → Bool
  | .console _ => true
  | .file f => f.stream_ok
  | .rotating _ => true
  | .daily d => if today ≠ d.current_date then true else d.stream_ok

/-- Lift of `Sink.renders_on_write` over the null-sink check of the dispatch
loop. -/
def sink_slot_renders (today : String) : Option Sink → Bool
  | some s => s.renders_on_write today
  | none => false

/-! Concrete sample data used by the executable checks below. -/

/-- A stand-in timestamp renderer for concrete scenarios. -/
def ts_stub : Nat → String := fun _ => "TS"

/-- A TRACE-level record whose render closure succeeds with "hello". -/
def entry_trace : LogEntry :=
  { level := .TRACE, formatter := mkFormatter "hello" [], timestamp := 7 }

/-- A healthy plain file sink on "app.log". -/
def file_sink_a : FileSink := { file_path := "app.log", stream_ok := true, ts_fmt := ts_stub }

/-- A plain file sink whose stream is in a failed state. -/
def file_sink_bad : FileSink := { file_path := "app.log", stream_ok := false, ts_fmt := ts_stub }

/-- Empty observable output state. -/
def world0 : World := { std_out := [], std_err := [], fs := [] }

/-- A colorless console sink writing everything to stdout. -/
def con1 : ConsoleSink := { use_colors := false, use_stderr_for_errors := false, ts_fmt := ts_stub }

/-- An INFO record whose render closure fails: three placeholders, one
argument, the mismatch the repository's FormatErrorHandling test logs. -/
def entry_bad : LogEntry :=
  { level := .INFO,
    formatter := mkFormatter "Wrong argument count: \x7b\x7d \x7b\x7d \x7b\x7d" ["42"],
    timestamp := 7 }

/-- A rotating sink configured with `max_file_size = 0` over a 4-byte file. -/
def rot_sink_c4 : RotatingFileSink :=
  { file_path := "rot.log", stream_ok := true, ts_fmt := ts_stub,
    config := { max_file_size := 0, max_files := 3 },
    base_path := { stem := "rot", ext := ".log" }, current_file_size := 4 }

/-- World whose base rotating file holds one old line. -/
def world_c4 : World :=
  { std_out := [], std_err := [], fs := [("rot.log", { lines := ["old"], mdate := "2025-01-01" })] }

/-- World holding a base daily file last written the previous day. -/
def world_c5 : World :=
  { std_out := [], std_err := [],
    fs := [("daily.log", { lines := ["old line"], mdate := "2025-01-01" })] }

/-- A daily sink mid-session whose recorded date is the previous day. -/
def daily_c5b : DailyFileSink :=
  { file_path := "daily.log", stream_ok := true, ts_fmt := ts_stub, config := {},
    base_path := { stem := "daily", ext := ".log" }, current_date := "2025-01-01" }

/-- World where a dated rollover file from a previous rollover already exists
next to a nonempty base file. -/
def world_c5b : World :=
  { std_out := [], std_err := [],
    fs := [("daily.log", { lines := ["cur"], mdate := "2025-01-01" }),
           ("daily_2025-01-01.log", { lines := ["prev"], mdate := "2025-01-01" })] }

/-- A running logger holding one published, unread record and one file sink. -/
def logger_c1 : LoggerState :=
  { running := true, queue := some ⟨[entry_trace]⟩,
    sinks := [some (Sink.file file_sink_a)], read_index := 0, log_level := .TRACE }

/-- A logger that has already been shut down. -/
def logger_stopped : LoggerState :=
  { running := false, queue := none, sinks := [], read_index := 1, log_level := .TRACE }

/-! Helper lemmas about the filesystem model. -/

theorem lookupFile_eraseFile_ne (fs : FS) {p q : String} (h : p ≠ q) :
    (fs.eraseFile q).lookupFile p = fs.lookupFile p := by
  induction fs with
  | nil => rfl
  | cons e rest ih =>
      obtain ⟨k, r⟩ := e
      by_cases hk : k = q
      · simp [FS.eraseFile, FS.lookupFile, hk, Ne.symm h, ih]
      · by_cases hp : k = p <;> simp [FS.eraseFile, FS.lookupFile, hk, hp, h, ih]

theorem lookupFile_eraseFile_self (fs : FS) (q : String) :
    (fs.eraseFile q).lookupFile q = none := by
  induction fs with
  | nil => rfl
  | cons e rest ih =>
      obtain ⟨k, r⟩ := e
      by_cases hk : k = q <;> simp [FS.eraseFile, FS.lookupFile, hk, ih]

theorem lookupFile_append_of_none (l1 l2 : FS) (p : String) (h : l1.lookupFile p = none) :
    FS.lookupFile (l1 ++ l2) p = l2.lookupFile p := by
  induction l1 with
  | nil => rfl
  | cons e rest ih =>
      obtain ⟨k, r⟩ := e
      simp only [FS.lookupFile, List.cons_append] at h ⊢
      by_cases hk : k = p
      · simp [hk] at h
      · simp only [hk, if_false, ite_false] at h ⊢
        simp [hk] at h ⊢
        exact ih h

theorem lookupFile_setFile_self (fs : FS) (q : String) (r : FileRec) :
    (fs.setFile q r).lookupFile q = some r := by
  rw [FS.setFile, lookupFile_append_of_none _ _ _ (lookupFile_eraseFile_self fs q)]
  simp [FS.lookupFile]

theorem lookupFile_setFile_ne (fs : FS) {p q : String} (r : FileRec) (h : p ≠ q) :
    (fs.setFile q r).lookupFile p = fs.lookupFile p := by
  rw [FS.setFile]
  have herase : (fs.eraseFile q).lookupFile p = fs.lookupFile p := lookupFile_eraseFile_ne fs h
  rw [← herase]
  induction fs.eraseFile q with
  | nil => simp [FS.lookupFile, Ne.symm h]
  | cons e rest ih =>
      obtain ⟨k, s⟩ := e
      by_cases hk : k = p <;> simp [FS.lookupFile, hk, ih]

theorem lookupFile_appendLine_ne (fs : FS) {p q : String} (line d : String) (h : p ≠ q) :
    (fs.appendLine q line d).lookupFile p = fs.lookupFile p := by
  unfold FS.appendLine
  cases fs.lookupFile q <;> exact lookupFile_setFile_ne _ _ h

/-- C3: the broadcast dispatch in `Logger::write_log_entry` delivers a record
below WARN to the configured sink: the loop body is `if (sink)
sink->write(entry)` with no per-sink level test and no dedicated test
(`ISink` carries neither a `min_level` nor a `dedicated` member), so every
non-null sink receives every record. -/
theorem broadcast_ignores_level_and_dedicated :
    write_log_entry "2025-01-02" [entry_trace] [some (Sink.file file_sink_a)] world0 =
      (Except.ok ([some (Sink.file file_sink_a)],
        { std_out := [], std_err := [],
          fs := [("app.log", { lines := ["TS [TRACE] hello"], mdate := "2025-01-02" })] }), 1) ∧
    entry_trace.level.toNat < LogLevel.WARN.toNat :=
  ⟨rfl, by decide⟩

/-- C6: a record whose render closure fails (three placeholders, one
argument) makes the format error escape `write_log_entry` — there is no
try/catch in the sink, the dispatch loop or the writer loop, so nothing is
written and no `MISSING_ARG` marker line is produced; in the source the
exception terminates the writer thread. -/
theorem format_error_escapes_writer :
    (write_log_entry "2025-01-02" [entry_bad] [some (Sink.file file_sink_a)] world0).1 =
      Except.error "format_error: argument not found" ∧
    (entry_bad.formatter ()).isOk = false :=
  ⟨rfl, rfl⟩

/-- C2 counterexample: with two configured console sinks the render closure of
one processed record is invoked twice, not exactly once. -/
theorem render_runs_once_per_sink_not_once :
    (write_log_entry "2025-01-02" [entry_trace]
       [some (Sink.console con1), some (Sink.console con1)] world0).2 = 2 ∧ (2 : Nat) ≠ 1 :=
  ⟨rfl, by decide⟩

/-- C4 counterexample: a rotating sink configured with `max_file_size = 0`
rotates — `check_rotation` fires because `current_size >= 0` always holds, and
a write moves the base file to the `_1` sibling. -/
theorem rotating_sink_rotates_with_zero_max :
    rot_sink_c4.config.max_file_size = 0 ∧
    (RotatingFileSink.check_rotation "2025-01-02" rot_sink_c4 world_c4).2.2 = true ∧
    (match (RotatingFileSink.write "2025-01-02" rot_sink_c4 world_c4 entry_trace).1 with
      | .ok (_, w2) => w2.fs.lookupFile "rot_1.log"
      | .error _ => none) = some { lines := ["old"], mdate := "2025-01-01" } :=
  ⟨rfl, rfl, rfl⟩

/-- C5 counterexample: constructing a daily sink over a base file last
written the previous day performs no rollover (content kept, no dated file),
the first write lands in the stale base file, and a later rollover renames
onto an existing dated file, destroying its content without appending any
index. -/
theorem daily_sink_restart_and_overwrite_counterexample :
    world_c5.fs.lookupFile "daily.log" = some { lines := ["old line"], mdate := "2025-01-01" } ∧
    "2025-01-01" ≠ "2025-01-02" ∧
    (DailyFileSink.construct ⟨"daily", ".log"⟩ {} ts_stub "2025-01-02" world_c5).2.fs =
      [("daily.log", { lines := ["old line"], mdate := "2025-01-01" })] ∧
    (match (DailyFileSink.write "2025-01-02"
        (DailyFileSink.construct ⟨"daily", ".log"⟩ {} ts_stub "2025-01-02" world_c5).1
        (DailyFileSink.construct ⟨"daily", ".log"⟩ {} ts_stub "2025-01-02" world_c5).2
        entry_trace).1 with
      | .ok (_, w2) => (w2.fs.lookupFile "daily.log", w2.fs.lookupFile "daily_2025-01-01.log")
      | .error _ => (none, none)) =
      (some { lines := ["old line", "TS [TRACE] hello"], mdate := "2025-01-02" }, none) ∧
    (DailyFileSink.check_rotation "2025-01-02" daily_c5b world_c5b).2.fs.lookupFile
        "daily_2025-01-01.log" = some { lines := ["cur"], mdate := "2025-01-01" } ∧
    (DailyFileSink.check_rotation "2025-01-02" daily_c5b world_c5b).2.fs.lookupFile
        "daily_2025-01-01_1.log" = none :=
  ⟨rfl, by decide, rfl, rfl, rfl, rfl⟩

/-- C8 counterexample: a requested capacity of 0 is used unchanged (0 is not a
power of two), and the power-of-two request 2^32 is truncated by the
`uint32_t` cast to a queue capacity of 0 instead of being used unchanged. -/
theorem used_queue_capacity_violations :
    used_queue_capacity 0 = 0 ∧ (∀ k : Nat, (0 : Nat) ≠ 2 ^ k) ∧
    used_queue_capacity (2 ^ 32) = 0 ∧ (2 : Nat) ^ 32 ≠ 0 :=
  ⟨by decide, fun k => (Nat.ne_of_lt (Nat.pos_pow_of_pos k (by decide))),
   by decide, by decide⟩

/-- C4 (amended): `RotatingFileSink::check_rotation` rotates exactly when
`current_file_size >= max_file_size`; hence `max_file_size = 0` does not
disable size rotation — it makes every write rotate.  `DailyFileSink` has no
size-based rotation at all: its rotation check depends only on the date, so
with an unchanged date nothing rotates however large the file has grown. -/
theorem size_rotation_iff_threshold_and_daily_has_none :
    (∀ (today : String) (s : RotatingFileSink) (w : World),
       (RotatingFileSink.check_rotation today s w).2.2 = true ↔
         s.config.max_file_size ≤ s.current_file_size) ∧
    (∀ (today : String) (s : RotatingFileSink) (w : World),
       s.config.max_file_size = 0 →
       (RotatingFileSink.check_rotation today s w).2.2 = true) ∧
    (∀ (today : String) (s : DailyFileSink) (w : World),
       today = s.current_date → DailyFileSink.check_rotation today s w = (s, w)) := by
  refine ⟨?_, ?_, ?_⟩
  · intro today s w
    unfold RotatingFileSink.check_rotation
    by_cases h : s.config.max_file_size ≤ s.current_file_size <;> simp [h]
  · intro today s w h
    unfold RotatingFileSink.check_rotation
    simp [h]
  · intro today s w h
    unfold DailyFileSink.check_rotation
    simp [h]

/-- C5 (amended): the `DailyFileSink` constructor performs no date-based
rollover — it opens the base file in append mode (content preserved, no other
path touched, in particular no dated file created) and records today's date;
and the rollover later performed by `check_rotation` renames the base file
onto the dated filename unconditionally, so the dated file afterwards holds
the base file's content whatever file existed there before — no incrementing
index is ever appended. -/
theorem daily_ctor_appends_and_rollover_replaces :
    (∀ (base : BasePath) (config : RotationConfig) (fmt : Nat → String)
       (today : String) (w : World),
       (DailyFileSink.construct base config fmt today w).2.fs =
         w.fs.openApp base.render today ∧
       (DailyFileSink.construct base config fmt today w).1.current_date = today ∧
       ∀ p, p ≠ base.render →
         (DailyFileSink.construct base config fmt today w).2.fs.lookupFile p =
           w.fs.lookupFile p) ∧
    (∀ (today : String) (s : DailyFileSink) (w : World) (rb : FileRec),
       today ≠ s.current_date →
       w.fs.lookupFile s.base_path.render = some rb →
       (DailyFileSink.check_rotation today s w).2.fs.lookupFile
         (s.get_dated_filename s.current_date) = some rb) := by
  constructor
  · intro base config fmt today w
    refine ⟨rfl, rfl, ?_⟩
    intro p hp
    show (w.fs.openApp base.render today).lookupFile p = w.fs.lookupFile p
    unfold FS.openApp
    by_cases hc : w.fs.containsFile base.render = true
    · simp [hc]
    · simp only [hc, if_false, Bool.false_eq_true, ite_false]
      exact lookupFile_setFile_ne _ _ hp
  · intro today s w rb hdate hbase
    have hcont : w.fs.containsFile s.base_path.render = true := by
      simp [FS.containsFile, hbase]
    have hne : s.get_dated_filename s.current_date ≠ s.base_path.render := by
      unfold DailyFileSink.get_dated_filename BasePath.render
      intro hcontra
      have hlen := congrArg String.length hcontra
      simp only [String.length_append] at hlen
      have h1 : 0 < ("_" : String).length := by decide
      omega
    unfold DailyFileSink.check_rotation
    rw [if_pos hdate]
    simp only [hcont, if_true, ite_true]
    show ((w.fs.renameFile s.base_path.render
        (s.get_dated_filename s.current_date)).openTrunc s.base_path.render
          today).lookupFile (s.get_dated_filename s.current_date) = some rb
    rw [FS.openTrunc, lookupFile_setFile_ne _ _ hne]
    unfold FS.renameFile
    rw [hbase]
    exact lookupFile_setFile_self _ _ _

/-- C7: `Logger::log` is a no-op when the logger is not running or the level
is below the global minimum (queue and sink state untouched); otherwise, with
the queue present, it captures the format string and arguments by value into
a deferred closure and publishes `{level, closure, now_ns}` as exactly one
new record. -/
theorem log_noop_or_publishes_one_record :
    ∀ (s : LoggerState) (level : LogLevel) (format : String) (args : List String)
      (now_ns : Nat) (q : QueueState),
      ((s.running = false ∨ level.toNat < s.log_level.toNat) →
        Logger.log s level format args now_ns = s) ∧
      (s.running = true → s.queue = some q → s.log_level.toNat ≤ level.toNat →
        Logger.log s level format args now_ns =
          { s with queue := some ⟨q.published ++
              [{ level := level, formatter := mkFormatter format args,
                 timestamp := now_ns }]⟩ }) := by
  intro s level format args now_ns q
  constructor
  · rintro (hrun | hlt)
    · simp [Logger.log, hrun]
    · simp [Logger.log, hlt]
  · intro hrun hq hge
    have hlt : ¬ level.toNat < s.log_level.toNat := by omega
    simp [Logger.log, hrun, hq, hlt]

/-- C9: `Logger::add_file_sink(path, config)` ignores its `RotationConfig`
argument entirely — any two configs give identical results — and the sink it
adds is a plain `FileSink`, whose `write` never rotates: it leaves the sink
state unchanged and touches no path other than its own file. -/
theorem add_file_sink_ignores_rotation_config :
    (∀ (today : String) (s : LoggerState) (w : World) (path : BasePath)
       (fmt : Nat → String) (c1 c2 : RotationConfig),
       Logger.add_file_sink today s w path fmt c1 =
         Logger.add_file_sink today s w path fmt c2) ∧
    (∀ (today : String) (s : LoggerState) (w : World) (path : BasePath)
       (fmt : Nat → String) (c : RotationConfig),
       (Logger.add_file_sink today s w path fmt c).1.sinks =
         s.sinks ++ [some (Sink.file { file_path := path.render, stream_ok := true,
                                       ts_fmt := fmt })]) ∧
    (∀ (today : String) (f : FileSink) (w : World) (e : LogEntry)
       (f2 : FileSink) (w2 : World),
       (FileSink.write today f w e).1 = .ok (f2, w2) →
       f2 = f ∧ ∀ p, p ≠ f.file_path → w2.fs.lookupFile p = w.fs.lookupFile p) := by
  refine ⟨fun _ _ _ _ _ _ _ => rfl, fun _ _ _ _ _ _ => rfl, ?_⟩
  intro today f w e f2 w2 hw
  by_cases hs : f.stream_ok
  · cases hf : e.formatter () with
    | ok m =>
        simp only [FileSink.write, FileSink.format_log_entry, hf, hs, if_true,
          ite_true, Except.ok.injEq, Prod.mk.injEq] at hw
        obtain ⟨hf2, hww⟩ := hw
        subst hf2
        refine ⟨rfl, ?_⟩
        intro p hp
        rw [← hww]
        exact lookupFile_appendLine_ne _ _ _ hp
    | error err =>
        simp [FileSink.write, FileSink.format_log_entry, hf, hs] at hw
  · simp only [FileSink.write, hs, Bool.false_eq_true, if_false, ite_false,
      Except.ok.injEq, Prod.mk.injEq] at hw
    obtain ⟨hf2, hww⟩ := hw
    subst hf2
    subst hww
    exact ⟨rfl, fun p _ => rfl⟩

/-- C10: with a failed stream, `FileSink::write` returns normally without
raising, without invoking the render closure and without changing any state
(the entry is silently discarded), and `FileSink::flush` likewise returns
normally with no effect. -/
theorem failed_stream_write_and_flush_are_silent :
    ∀ (today : String) (f : FileSink) (w : World) (e : LogEntry),
      f.stream_ok = false →
      FileSink.write today f w e = (.ok (f, w), 0) ∧ FileSink.flush f w = w := by
  intro today f w e h
  constructor
  · unfold FileSink.write
    simp [h]
  · unfold FileSink.flush
    simp [h]

/-! Helper lemmas about the dispatch loop. -/

theorem exists_ok_of_isOk {x : Except String String} (h : x.isOk = true) :
    ∃ m, x = .ok m := by
  cases x with
  | ok a => exact ⟨a, rfl⟩
  | error e => exact Bool.noConfusion h

theorem console_write_ok {e : LogEntry} {m : String} (hm : e.formatter () = .ok m)
    (c : ConsoleSink) (w : World) :
    ∃ c2 w2, ConsoleSink.write c w e = (.ok (c2, w2), 1) := by
  simp only [ConsoleSink.write, ConsoleSink.format_log_entry, hm]
  split <;> exact ⟨_, _, rfl⟩

theorem file_write_ok (today : String) {e : LogEntry} {m : String}
    (hm : e.formatter () = .ok m) (f : FileSink) (w : World) :
    ∃ f2 w2, FileSink.write today f w e =
      (.ok (f2, w2), if f.stream_ok then 1 else 0) := by
  by_cases hs : f.stream_ok <;>
    (simp only [FileSink.write, FileSink.format_log_entry, hm, hs, Bool.false_eq_true,
      if_true, if_false, ite_true, ite_false]
     exact ⟨_, _, rfl⟩)

theorem rotating_write_ok (today : String) {e : LogEntry} {m : String}
    (hm : e.formatter () = .ok m) (r : RotatingFileSink) (w : World) :
    ∃ r2 w2, RotatingFileSink.write today r w e = (.ok (r2, w2), 1) := by
  simp only [RotatingFileSink.write, FileSink.format_log_entry, hm]
  split <;> exact ⟨_, _, rfl⟩

theorem daily_write_ok (today : String) {e : LogEntry} {m : String}
    (hm : e.formatter () = .ok m) (d : DailyFileSink) (w : World) :
    ∃ d2 w2, DailyFileSink.write today d w e =
      (.ok (d2, w2),
        if Sink.renders_on_write today (.daily d) then 1 else 0) := by
  by_cases hd : today ≠ d.current_date
  · simp only [DailyFileSink.write, DailyFileSink.check_rotation, if_pos hd,
      FileSink.format_log_entry, hm, Sink.renders_on_write, if_true, ite_true]
    exact ⟨_, _, rfl⟩
  · have hcr : DailyFileSink.check_rotation today d w = (d, w) := by
      unfold DailyFileSink.check_rotation
      rw [if_neg hd]
    by_cases hs : d.stream_ok
    · simp only [DailyFileSink.write, hcr, FileSink.format_log_entry, hm, hs,
        Sink.renders_on_write, if_neg hd, if_true, ite_true]
      exact ⟨_, _, rfl⟩
    · simp only [DailyFileSink.write, hcr, FileSink.format_log_entry, hm, hs,
        Sink.renders_on_write, if_neg hd, Bool.false_eq_true, if_false, ite_false]
      exact ⟨_, _, rfl⟩

theorem sink_write_ok (today : String) {e : LogEntry} (h : (e.formatter ()).isOk = true)
    (s : Sink) (w : World) : ∃ s2 w2,
      Sink.write today s w e = (.ok (s2, w2), if s.renders_on_write today then 1 else 0) := by
  obtain ⟨m, hm⟩ := exists_ok_of_isOk h
  cases s with
  | console c =>
      obtain ⟨c2, w2, hc⟩ := console_write_ok hm c w
      exact ⟨.console c2, w2, by simp [Sink.write, hc, Sink.renders_on_write]⟩
  | file f =>
      obtain ⟨f2, w2, hf⟩ := file_write_ok today hm f w
      exact ⟨.file f2, w2, by simp [Sink.write, hf, Sink.renders_on_write]⟩
  | rotating r =>
      obtain ⟨r2, w2, hr⟩ := rotating_write_ok today hm r w
      exact ⟨.rotating r2, w2, by simp [Sink.write, hr, Sink.renders_on_write]⟩
  | daily d =>
      obtain ⟨d2, w2, hd⟩ := daily_write_ok today hm d w
      exact ⟨.daily d2, w2, by simp [Sink.write, hd]⟩

theorem write_entry_to_sinks_ok (today : String) {e : LogEntry}
    (h : (e.formatter ()).isOk = true) :
    ∀ (sinks : List (Option Sink)) (w : World), ∃ sinks2 w2,
      write_entry_to_sinks today e sinks w =
        (.ok (sinks2, w2), List.countP (sink_slot_renders today) sinks) := by
  intro sinks
  induction sinks with
  | nil => intro w; exact ⟨[], w, rfl⟩
  | cons os rest ih =>
      intro w
      cases os with
      | none =>
          obtain ⟨rest2, w2, hw⟩ := ih w
          refine ⟨none :: rest2, w2, ?_⟩
          simp only [write_entry_to_sinks, hw]
          simp [List.countP_cons, sink_slot_renders]
      | some s =>
          obtain ⟨s2, w2, hw⟩ := sink_write_ok today h s w
          obtain ⟨rest2, w3, hr⟩ := ih w2
          refine ⟨some s2 :: rest2, w3, ?_⟩
          simp only [write_entry_to_sinks, hw, hr, List.countP_cons, sink_slot_renders]
          by_cases hre : s.renders_on_write today <;> simp [hre] <;> omega

theorem sink_flush_eq (s : Sink) (w : World) : s.flush w = w := by
  cases s <;> simp [Sink.flush, ConsoleSink.flush, FileSink.flush]

theorem flush_all_sinks_eq (sinks : List (Option Sink)) (w : World) :
    flush_all_sinks sinks w = w := by
  induction sinks generalizing w with
  | nil => rfl
  | cons os rest ih => cases os <;> simp [flush_all_sinks, sink_flush_eq, ih]

theorem write_log_entry_nil (today : String) (sinks : List (Option Sink)) (w : World) :
    write_log_entry today [] sinks w = (.ok (sinks, w), 0) := by
  simp [write_log_entry, flush_all_sinks_eq]

theorem write_log_entry_ok (today : String) :
    ∀ (entries : List LogEntry) (sinks : List (Option Sink)) (w : World),
      (∀ e ∈ entries, (e.formatter ()).isOk = true) →
      ∃ sinks2 w2 n, write_log_entry today entries sinks w = (.ok (sinks2, w2), n) := by
  intro entries
  induction entries with
  | nil => intro sinks w _; exact ⟨sinks, w, 0, write_log_entry_nil today sinks w⟩
  | cons e rest ih =>
      intro sinks w hall
      obtain ⟨sinks2, w2, hw⟩ := write_entry_to_sinks_ok today (hall e (by simp)) sinks w
      obtain ⟨sinks3, w3, n, hr⟩ := ih sinks2 w2 (fun x hx => hall x (by simp [hx]))
      refine ⟨sinks3, w3, List.countP (sink_slot_renders today) sinks + n, ?_⟩
      simp [write_log_entry, hw, hr]

theorem drain_loop_spec (today : String) (q : QueueState) :
    ∀ (rix : Nat) (sinks : List (Option Sink)) (w : World),
      rix ≤ q.published.length →
      (∀ e ∈ q.read rix, (e.formatter ()).isOk = true) →
      ∃ sinks2 w2 n,
        write_log_entry today (q.read rix) sinks w = (.ok (sinks2, w2), n) ∧
        drain_loop today q rix sinks w = .ok (sinks2, w2, q.published.length) := by
  intro rix sinks w hle hok
  by_cases h0 : (q.read rix).length = 0
  · have hnil : q.read rix = [] := List.length_eq_zero.mp h0
    have hrix : rix = q.published.length := by
      simp only [QueueState.read, List.length_drop] at h0
      omega
    refine ⟨sinks, w, 0, ?_, ?_⟩
    · rw [hnil, write_log_entry_nil]
    · rw [drain_loop.eq_def, if_pos h0, hrix]
  · obtain ⟨sinks2, w2, n, hw⟩ := write_log_entry_ok today (q.read rix) sinks w hok
    have hlen : rix + (q.read rix).length = q.published.length := by
      simp only [QueueState.read, List.length_drop]
      omega
    refine ⟨sinks2, w2, n, hw, ?_⟩
    rw [drain_loop.eq_def, if_neg h0, hw, hlen]
    show drain_loop today q q.published.length sinks2 w2 =
      Except.ok (sinks2, w2, q.published.length)
    rw [drain_loop.eq_def, if_pos (by simp [QueueState.read])]

/-- C1: `shutdown()` on a running logger joins the writer's final drain loop,
which processes exactly the records published and not yet read (all of them —
the read cursor ends at the published length), writing them to the sinks via
`write_log_entry`; the resulting world is precisely the one produced by
dispatching the whole pending batch.  A second `shutdown()` on an
already-stopped logger returns immediately with nothing changed. -/
theorem shutdown_drains_published_and_is_idempotent :
    (∀ (today : String) (s : LoggerState) (w : World) (q : QueueState),
      s.running = true → s.queue = some q → s.read_index ≤ q.published.length →
      (∀ e ∈ q.read s.read_index, (e.formatter ()).isOk = true) →
      ∃ sinks2 w2 n,
        write_log_entry today (q.read s.read_index) s.sinks w = (.ok (sinks2, w2), n) ∧
        Logger.shutdown today s w =
          .ok ({ running := false, queue := none, sinks := [],
                 read_index := q.published.length, log_level := s.log_level }, w2)) ∧
    (∀ (today : String) (s : LoggerState) (w : World),
      s.running = false → Logger.shutdown today s w = .ok (s, w)) := by
  constructor
  · intro today s w q hrun hq hle hok
    obtain ⟨sinks2, w2, n, hw, hd⟩ := drain_loop_spec today q s.read_index s.sinks w hle hok
    refine ⟨sinks2, w2, n, hw, ?_⟩
    simp [Logger.shutdown, hrun, hq, hd]
  · intro today s w hrun
    simp [Logger.shutdown, hrun]

/-- C2 (amended): processing one record through `Logger::write_log_entry`
invokes its render closure exactly once per configured sink that renders it
(console sinks and rotating sinks always render, plain file and daily sinks
render behind their stream guard, null sink slots never do) — once per such
sink, not once per record. -/
theorem render_invoked_once_per_rendering_sink :
    ∀ (today : String) (e : LogEntry) (sinks : List (Option Sink)) (w : World),
      (e.formatter ()).isOk = true →
      (write_log_entry today [e] sinks w).2 =
        List.countP (sink_slot_renders today) sinks := by
  intro today e sinks w h
  obtain ⟨sinks2, w2, hw⟩ := write_entry_to_sinks_ok today h sinks w
  simp [write_log_entry, hw, write_log_entry_nil]

/-! Helper lemmas for the power-of-two rounding. -/

theorem stage_bits {t s m : Nat}
    (h : ∀ i, s.testBit i = true ↔ ∃ d, d < m ∧ t.testBit (i + d) = true) :
    ∀ i, (s ||| s >>> m).testBit i = true ↔
      ∃ d, d < 2 * m ∧ t.testBit (i + d) = true := by
  intro i
  rw [Nat.testBit_lor, Nat.testBit_shiftRight, Bool.or_eq_true, h i, h (m + i)]
  constructor
  · rintro (⟨d, hd, hb⟩ | ⟨d, hd, hb⟩)
    · exact ⟨d, by omega, hb⟩
    · exact ⟨m + d, by omega, by rwa [show i + (m + d) = m + i + d by omega]⟩
  · rintro ⟨d, hd, hb⟩
    by_cases hdm : d < m
    · exact Or.inl ⟨d, hdm, hb⟩
    · exact Or.inr ⟨d - m, by omega, by rwa [show m + i + (d - m) = i + d by omega]⟩

theorem smear64_bits (t : Nat) :
    ∀ i, (smear64 t).testBit i = true ↔ ∃ d, d < 64 ∧ t.testBit (i + d) = true := by
  have h1 : ∀ i, t.testBit i = true ↔ ∃ d, d < 1 ∧ t.testBit (i + d) = true := by
    intro i
    constructor
    · intro hb
      exact ⟨0, by omega, by simpa using hb⟩
    · rintro ⟨d, hd, hb⟩
      have : d = 0 := by omega
      subst this
      simpa using hb
  have h2 := stage_bits h1
  have h4 := stage_bits h2
  have h8 := stage_bits h4
  have h16 := stage_bits h8
  have h32 := stage_bits h16
  have h64 := stage_bits h32
  simpa [smear64] using h64

theorem testBit_top {x k : Nat} (hlo : 2 ^ k ≤ x) (hhi : x < 2 ^ (k + 1)) :
    x.testBit k = true := by
  have hp : 0 < 2 ^ k := Nat.pos_pow_of_pos k (by decide)
  have h1 : 1 ≤ x / 2 ^ k := (Nat.le_div_iff_mul_le hp).mpr (by omega)
  have h2 : x / 2 ^ k < 2 := by
    apply (Nat.div_lt_iff_lt_mul hp).mpr
    calc x < 2 ^ (k + 1) := hhi
    _ = 2 * 2 ^ k := by rw [Nat.pow_succ, Nat.mul_comm]
  have hdiv : x / 2 ^ k = 1 := by omega
  rw [Nat.testBit_to_div_mod, hdiv]
  decide

theorem exists_high_bit_iff {t : Nat} (h1 : 1 ≤ t) (h2 : t < 2 ^ 32) (i : Nat) :
    (∃ d, d < 64 ∧ t.testBit (i + d) = true) ↔ i < t.size := by
  constructor
  · rintro ⟨d, _, hb⟩
    have hge : 2 ^ (i + d) ≤ t := Nat.testBit_implies_ge hb
    have hs : i + d < t.size := Nat.lt_size.mpr hge
    omega
  · intro hi
    have hsz : 0 < t.size := Nat.lt_size.mpr (by simpa using h1)
    have hle32 : t.size ≤ 32 := Nat.size_le.mpr h2
    refine ⟨t.size - 1 - i, by omega, ?_⟩
    rw [show i + (t.size - 1 - i) = t.size - 1 by omega]
    have hlow : 2 ^ (t.size - 1) ≤ t := Nat.lt_size.mp (by omega)
    have hhigh : t < 2 ^ (t.size - 1 + 1) := by
      rw [show t.size - 1 + 1 = t.size by omega]
      exact Nat.lt_size_self t
    exact testBit_top hlow hhigh

theorem smear64_eq {t : Nat} (h1 : 1 ≤ t) (h2 : t < 2 ^ 32) :
    smear64 t = 2 ^ t.size - 1 := by
  apply Nat.eq_of_testBit_eq
  intro i
  rw [Nat.testBit_two_pow_sub_one]
  by_cases hi : i < t.size
  · have := (smear64_bits t i).mpr ((exists_high_bit_iff h1 h2 i).mpr hi)
    simp [this, hi]
  · have hx : ¬ (smear64 t).testBit i = true :=
      fun hh => hi ((exists_high_bit_iff h1 h2 i).mp ((smear64_bits t i).mp hh))
    simp only [Bool.not_eq_true] at hx
    simp [hx, hi]

theorem guard_zero_of_pow (k : Nat) : 2 ^ k &&& (2 ^ k - 1) = 0 := by
  apply Nat.eq_of_testBit_eq
  intro i
  rw [Nat.testBit_land, Nat.testBit_two_pow, Nat.testBit_two_pow_sub_one, Nat.zero_testBit]
  by_cases h : k = i <;> simp [h]

theorem pow_of_guard_zero {n : Nat} (h1 : 1 ≤ n) (hg : n &&& (n - 1) = 0) :
    n = 2 ^ (n.size - 1) := by
  by_contra hne
  have hsz : 0 < n.size := Nat.lt_size.mpr (by simpa using h1)
  have hlow : 2 ^ (n.size - 1) ≤ n := Nat.lt_size.mp (by omega)
  have hhigh : n < 2 ^ (n.size - 1 + 1) := by
    rw [show n.size - 1 + 1 = n.size by omega]
    exact Nat.lt_size_self n
  have hlow2 : 2 ^ (n.size - 1) ≤ n - 1 := by
    rcases Nat.lt_or_ge (n - 1) (2 ^ (n.size - 1)) with hlt | hge
    · exact absurd (by omega : n = 2 ^ (n.size - 1)) hne
    · exact hge
  have hb1 : n.testBit (n.size - 1) = true := testBit_top hlow hhigh
  have hb2 : (n - 1).testBit (n.size - 1) = true := testBit_top hlow2 (by omega)
  have hb : (n &&& (n - 1)).testBit (n.size - 1) = true := by
    rw [Nat.testBit_land, hb1, hb2]
    rfl
  rw [hg, Nat.zero_testBit] at hb
  exact Bool.noConfusion hb

theorem guard_pos_ge_two {n : Nat} (hg : n &&& (n - 1) ≠ 0) : 2 ≤ n := by
  by_contra hlt
  have : n = 0 ∨ n = 1 := by omega
  rcases this with h | h <;> subst h <;> exact hg (by decide)

/-- C8 (amended): for every requested capacity between 1 and 2^31, the
capacity handed to the queue constructor is a power of two, at least the
request, unchanged when the request is already a power of two, and minimal
among powers of two at least the request (i.e. the next power of two
otherwise).  Outside that range the guarantee fails: see the 0 and 2^32
counterexamples. -/
theorem used_queue_capacity_rounds_to_pow2 :
    ∀ n : Nat, 1 ≤ n → n ≤ 2 ^ 31 →
      (∃ k, used_queue_capacity n = 2 ^ k) ∧
      n ≤ used_queue_capacity n ∧
      ((∃ k, n = 2 ^ k) → used_queue_capacity n = n) ∧
      (∀ m k : Nat, m = 2 ^ k → n ≤ m → used_queue_capacity n ≤ m) := by
  intro n hn1 hn31
  by_cases hg : n &&& (n - 1) ≠ 0
  · -- smear branch
    have hn2 : 2 ≤ n := guard_pos_ge_two hg
    have ht1 : 1 ≤ n - 1 := by omega
    have ht2 : n - 1 < 2 ^ 32 := by
      have : (2 : Nat) ^ 31 < 2 ^ 32 := by norm_num
      omega
    have hsz31 : (n - 1).size ≤ 31 := by
      apply Nat.size_le.mpr
      have : (2 : Nat) ^ 31 = 2147483648 := by norm_num
      omega
    have hszpos : 0 < (n - 1).size := Nat.lt_size.mpr (by simpa using ht1)
    have hple : 2 ^ (n - 1).size ≤ 2 ^ 31 :=
      Nat.pow_le_pow_right (by norm_num) hsz31
    have hval : used_queue_capacity n = 2 ^ (n - 1).size := by
      unfold used_queue_capacity round_queue_size
      rw [if_pos hg, smear64_eq ht1 ht2]
      have hpos : 0 < 2 ^ (n - 1).size := Nat.pos_pow_of_pos _ (by decide)
      rw [show 2 ^ (n - 1).size - 1 + 1 = 2 ^ (n - 1).size by omega]
      rw [Nat.mod_eq_of_lt (by
        have : (2 : Nat) ^ 31 < 2 ^ 64 := by norm_num
        omega)]
      rw [Nat.mod_eq_of_lt (by
        have : (2 : Nat) ^ 31 < 2 ^ 32 := by norm_num
        omega)]
    refine ⟨⟨(n - 1).size, hval⟩, ?_, ?_, ?_⟩
    · have := Nat.lt_size_self (n - 1)
      omega
    · rintro ⟨k, hk⟩
      exact absurd (hk ▸ guard_zero_of_pow k) hg
    · rintro m k rfl hm
      rw [hval]
      exact Nat.pow_le_pow_right (by norm_num) (Nat.size_le.mpr (by omega))
  · -- guard-zero branch: the request is left unchanged and is a power of two
    push_neg at hg
    have hval : used_queue_capacity n = n := by
      unfold used_queue_capacity round_queue_size
      rw [if_neg (by simpa using hg)]
      apply Nat.mod_eq_of_lt
      have : (2 : Nat) ^ 31 < 2 ^ 32 := by norm_num
      omega
    have hpow : n = 2 ^ (n.size - 1) := pow_of_guard_zero hn1 hg
    exact ⟨⟨n.size - 1, hval.trans hpow⟩, hval.ge, fun _ => hval,
      fun m k hk hm => by rw [hval]; exact hm⟩

/-! Witnesses: the theorems above applied at concrete inputs. -/

/-- Witness for C1: one pending record, one file sink; drain and idempotence
at concrete inputs. -/
theorem shutdown_drain_witness :
    (∃ sinks2 w2 n,
      write_log_entry "2025-01-02" ((⟨[entry_trace]⟩ : QueueState).read logger_c1.read_index)
        logger_c1.sinks world0 = (Except.ok (sinks2, w2), n) ∧
      Logger.shutdown "2025-01-02" logger_c1 world0 =
        Except.ok ({ running := false, queue := none, sinks := [],
                     read_index := (⟨[entry_trace]⟩ : QueueState).published.length,
                     log_level := logger_c1.log_level }, w2)) ∧
    Logger.shutdown "2025-01-02" logger_stopped world0 = Except.ok (logger_stopped, world0) :=
  ⟨shutdown_drains_published_and_is_idempotent.1 "2025-01-02" logger_c1 world0 ⟨[entry_trace]⟩
      rfl rfl (by decide)
      (by
        intro e he
        have he2 : e = entry_trace := by simpa [QueueState.read, logger_c1] using he
        subst he2
        rfl),
   shutdown_drains_published_and_is_idempotent.2 "2025-01-02" logger_stopped world0 rfl⟩

/-- Witness for C2 (amended): render count over a one-sink configuration. -/
theorem render_count_witness :
    (write_log_entry "2025-01-02" [entry_trace] [some (Sink.file file_sink_a)] world0).2 =
      List.countP (sink_slot_renders "2025-01-02") [some (Sink.file file_sink_a)] :=
  render_invoked_once_per_rendering_sink "2025-01-02" entry_trace
    [some (Sink.file file_sink_a)] world0 rfl

/-- Witness for C4 (amended): the zero-threshold rotating sink rotates, the
daily sink with unchanged date does nothing. -/
theorem size_rotation_witness :
    (RotatingFileSink.check_rotation "2025-01-02" rot_sink_c4 world_c4).2.2 = true ∧
    DailyFileSink.check_rotation "2025-01-01" daily_c5b world_c5b = (daily_c5b, world_c5b) :=
  ⟨size_rotation_iff_threshold_and_daily_has_none.2.1 "2025-01-02" rot_sink_c4 world_c4 rfl,
   size_rotation_iff_threshold_and_daily_has_none.2.2 "2025-01-01" daily_c5b world_c5b rfl⟩

/-- Witness for C5 (amended): constructor date recording and untouched other
paths, and the rollover landing the base content on the dated name. -/
theorem daily_ctor_witness :
    (DailyFileSink.construct ⟨"daily", ".log"⟩ {} ts_stub "2025-01-02" world_c5).1.current_date =
      "2025-01-02" ∧
    (DailyFileSink.construct ⟨"daily", ".log"⟩ {} ts_stub "2025-01-02" world_c5).2.fs.lookupFile
      "other.log" = world_c5.fs.lookupFile "other.log" ∧
    (DailyFileSink.check_rotation "2025-01-02" daily_c5b world_c5b).2.fs.lookupFile
      (daily_c5b.get_dated_filename daily_c5b.current_date) =
        some { lines := ["cur"], mdate := "2025-01-01" } :=
  ⟨(daily_ctor_appends_and_rollover_replaces.1 ⟨"daily", ".log"⟩ {} ts_stub
      "2025-01-02" world_c5).2.1,
   (daily_ctor_appends_and_rollover_replaces.1 ⟨"daily", ".log"⟩ {} ts_stub
      "2025-01-02" world_c5).2.2 "other.log" (by decide),
   daily_ctor_appends_and_rollover_replaces.2 "2025-01-02" daily_c5b world_c5b
      { lines := ["cur"], mdate := "2025-01-01" } (by decide) rfl⟩

/-- Witness for C7: the guard at a stopped logger and a publish on a running
one. -/
theorem log_witness :
    Logger.log logger_stopped .INFO "hello" [] 7 = logger_stopped ∧
    Logger.log logger_c1 .INFO "hello" [] 7 =
      { logger_c1 with queue := some ⟨[entry_trace] ++
          [{ level := .INFO, formatter := mkFormatter "hello" [],
             timestamp := 7 }]⟩ } :=
  ⟨(log_noop_or_publishes_one_record logger_stopped .INFO "hello" [] 7 ⟨[]⟩).1 (Or.inl rfl),
   (log_noop_or_publishes_one_record logger_c1 .INFO "hello" [] 7 ⟨[entry_trace]⟩).2
     rfl rfl (by decide)⟩

/-- Witness for C8 (amended): the rounded capacity for the request 5 lies
between 5 and the next power of two, 8. -/
theorem used_queue_capacity_witness :
    5 ≤ used_queue_capacity 5 ∧ used_queue_capacity 5 ≤ 8 :=
  ⟨(used_queue_capacity_rounds_to_pow2 5 (by decide) (by decide)).2.1,
   (used_queue_capacity_rounds_to_pow2 5 (by decide) (by decide)).2.2.2 8 3 rfl (by decide)⟩

/-- Witness for C9: config-independence at two distinct configs and the
locality of a concrete FileSink write. -/
theorem add_file_sink_witness :
    Logger.add_file_sink "2025-01-02" logger_stopped world0 ⟨"app", ".log"⟩ ts_stub {} =
      Logger.add_file_sink "2025-01-02" logger_stopped world0 ⟨"app", ".log"⟩ ts_stub
        { max_file_size := 0, max_files := 1 } ∧
    FS.lookupFile [("app.log", { lines := ["TS [TRACE] hello"], mdate := "2025-01-02" })]
      "other.log" = world0.fs.lookupFile "other.log" :=
  ⟨add_file_sink_ignores_rotation_config.1 "2025-01-02" logger_stopped world0 ⟨"app", ".log"⟩
      ts_stub {} { max_file_size := 0, max_files := 1 },
   (add_file_sink_ignores_rotation_config.2.2 "2025-01-02" file_sink_a world0 entry_trace
      file_sink_a
      { std_out := [], std_err := [],
        fs := [("app.log", { lines := ["TS [TRACE] hello"], mdate := "2025-01-02" })] }
      rfl).2 "other.log" (by decide)⟩

/-- Witness for C10: a concrete failed-stream sink discards a write and
flushes without effect. -/
theorem failed_stream_witness :
    FileSink.write "2025-01-02" file_sink_bad world0 entry_trace =
      (Except.ok (file_sink_bad, world0), 0) ∧
    FileSink.flush file_sink_bad world0 = world0 :=
  failed_stream_write_and_flush_are_silent "2025-01-02" file_sink_bad world0 entry_trace rfl

end SlickLogger
